import Mathlib

/-!
Verification of the LibreCrawl virtual-scroll table engine.

This file embeds the class VirtualScrollTable from
src/web/static/js/virtual-scroll.js (lines 6-197) as a pure state-transition
system and proves properties of the embedding.

Modelling conventions:
* JS Map and Set become functions Nat -> Option (List rowtype) and Nat -> Bool.
* The async method loadBatch(offset) is split at its await point into
  loadBatchStart (the synchronous part up to issuing the fetch: dedup check,
  pending mark) and loadBatchResolve (the continuation that runs when the
  fetch settles: commit / catch / finally).  The environment is modelled by
  the ghost field inFlight, the multiset of offsets whose fetch has been
  issued but has not yet settled; a reset does not abort in-flight fetches.
* The DOM is modelled by the ghost fields displayed (the rendered table rows),
  topSpacerPx and bottomSpacerPx, and scrollTop (the scroll container offset).
* All quantities are Nat except spacer heights, which are Int because the
  source computes (totalRows - visibleEnd) * rowHeight before clamping at 0.
* JS Math.max(0, a - b) on natural numbers is Nat truncated subtraction a - b;
  JS Math.ceil(x / r) for naturals with r > 0 is (x + r - 1) / r.
-/

namespace LibreCrawl

variable {A R : Type}

/-- A visible row-index window.  The source stores it as the pair of fields
visibleStart / visibleEnd; the field named stop here is the source's
visibleEnd (end is a Lean keyword). -/
structure Window where
  start : Nat
  stop : Nat
  deriving Repr, DecidableEq

/-- The visible-range computation of handleScroll (virtual-scroll.js lines
106-115): startRow = Math.floor(scrollTop / rowHeight), endRow =
Math.ceil((scrollTop + containerHeight) / rowHeight), visibleStart =
Math.max(0, startRow - bufferSize), visibleEnd = Math.min(totalRows,
endRow + bufferSize). -/
def computeRange (scrollTop containerHeight rowHeight bufferSize totalRows : Nat) : Window :=
  let startRow := scrollTop / rowHeight
  let endRow := (scrollTop + containerHeight + rowHeight - 1) / rowHeight
  { start := startRow - bufferSize
    stop := min totalRows (endRow + bufferSize) }

/-- Outcome of a settled fetch for one batch: a response with success=true
carrying a row array and an optional total, a response with success=false,
or a transport error (fetch rejected / json threw). -/
inductive Outcome (A : Type) where
  | success (rows : List A) (total : Option Nat)
  | failure
  | transportError
  deriving Repr, DecidableEq

/-- The state of a VirtualScrollTable instance (constructor, virtual-scroll.js
lines 7-32), together with the ghost DOM and network fields described in the
file header.  A is the row-record type, R the rendered-row type. -/
structure VSState (A R : Type) where
  -- configuration (options read in the constructor)
  rowHeight : Nat
  bufferSize : Nat
  batchSize : Nat
  apiEndpoint : String
  sessionId : String
  filters : List (String × String)
  renderRow : A → R
  -- mutable session state
  totalRows : Nat
  loadedData : Nat → Option (List A)
  visibleStart : Nat
  visibleEnd : Nat
  isLoading : Bool
  loadingCache : Nat → Bool
  -- scroll container / DOM (ghost)
  scrollTop : Nat
  topSpacerPx : Int
  bottomSpacerPx : Int
  displayed : List (Option R)
  -- outstanding fetches (ghost; a reset does not abort them)
  inFlight : List Nat

/-- The constructor (virtual-scroll.js lines 7-32): stores the configuration
and initializes totalRows = 0, empty loadedData map, visibleStart =
visibleEnd = 0, isLoading = false, empty loadingCache set.  The spacers are
created with height 0 and the table body is empty. -/
def mkTable (rowHeight bufferSize batchSize : Nat) (apiEndpoint sessionId : String)
    (filters : List (String × String)) (renderRow : A → R) : VSState A R :=
  { rowHeight := rowHeight
    bufferSize := bufferSize
    batchSize := batchSize
    apiEndpoint := apiEndpoint
    sessionId := sessionId
    filters := filters
    renderRow := renderRow
    totalRows := 0
    loadedData := fun _ => none
    visibleStart := 0
    visibleEnd := 0
    isLoading := false
    loadingCache := fun _ => false
    scrollTop := 0
    topSpacerPx := 0
    bottomSpacerPx := 0
    displayed := []
    inFlight := [] }

/-- updateSpacers (virtual-scroll.js lines 170-176):
topHeight = visibleStart * rowHeight,
bottomHeight = Math.max(0, (totalRows - visibleEnd) * rowHeight). -/
def updateSpacers (s : VSState A R) : VSState A R :=
  { s with
    topSpacerPx := (s.visibleStart : Int) * (s.rowHeight : Int)
    bottomSpacerPx := max 0 (((s.totalRows : Int) - (s.visibleEnd : Int)) * (s.rowHeight : Int)) }

/-- The synchronous part of loadBatch(offset) (virtual-scroll.js lines 66-73):
return early if loadingCache already has the offset, otherwise add the offset
to loadingCache, set isLoading and issue the fetch.  The Bool reports whether
a fetch request was actually issued. -/
def loadBatchStart (s : VSState A R) (offset : Nat) : VSState A R × Bool :=
  if s.loadingCache offset = true then (s, false)
  else
    ({ s with
        loadingCache := fun o => if o = offset then true else s.loadingCache o
        isLoading := true
        inFlight := offset :: s.inFlight }, true)

/-- The continuation of loadBatch(offset) after the awaited fetch settles
(virtual-scroll.js lines 83-102).  On data.success: loadedData.set(offset,
rows); if data.total is defined, assign totalRows and call updateSpacers.
On success=false nothing is stored; a transport error is caught and logged.
In all cases the finally block sets isLoading = false and deletes the offset
from loadingCache.  Note there is no generation check: the commit happens
even if reset() ran while the fetch was in flight.  Errors never escape:
this function is total. -/
def loadBatchResolve (s : VSState A R) (offset : Nat) (out : Outcome A) : VSState A R :=
  match out with
  | Outcome.success rows total =>
      let s1 := { s with
                  inFlight := s.inFlight.erase offset
                  loadedData := fun o => if o = offset then some rows else s.loadedData o }
      let s2 := match total with
                | some t => updateSpacers { s1 with totalRows := t }
                | none => s1
      { s2 with
        isLoading := false
        loadingCache := fun o => if o = offset then false else s2.loadingCache o }
  | Outcome.failure =>
      { s with
        inFlight := s.inFlight.erase offset
        isLoading := false
        loadingCache := fun o => if o = offset then false else s.loadingCache o }
  | Outcome.transportError =>
      { s with
        inFlight := s.inFlight.erase offset
        isLoading := false
        loadingCache := fun o => if o = offset then false else s.loadingCache o }

/-- The row selected for display index i by render (virtual-scroll.js lines
149-160): batchOffset = Math.floor(i / batchSize) * batchSize; if the batch
is in loadedData and i - batchOffset < batch.length, the row at that index,
otherwise nothing (a gap). -/
def rowAt (s : VSState A R) (i : Nat) : Option A :=
  let batchOffset := i / s.batchSize * s.batchSize
  match s.loadedData batchOffset with
  | some batch =>
      if h : i - batchOffset < batch.length then some (batch.get ⟨i - batchOffset, h⟩)
      else none
  | none => none

/-- The sequence of row records selected by the render loop
for i = visibleStart; i < visibleEnd; i++ (virtual-scroll.js lines 149-161),
with none marking a gap. -/
def renderRows (s : VSState A R) : List (Option A) :=
  (List.range (s.visibleEnd - s.visibleStart)).map (fun k => rowAt s (s.visibleStart + k))

/-- render() (virtual-scroll.js lines 136-168): clear the current rows,
emit this.renderRow(rowData) for each selected row, then updateSpacers. -/
def render (s : VSState A R) : VSState A R :=
  updateSpacers { s with displayed := (renderRows s).map (Option.map s.renderRow) }

/-- The batch-aligned offsets considered by checkAndLoadBatches
(virtual-scroll.js lines 125-129): startBatch = Math.floor(visibleStart /
batchSize) * batchSize, endBatch = Math.floor(visibleEnd / batchSize) *
batchSize, and the loop offsets startBatch, startBatch + batchSize, ...,
up to and including endBatch.  Writing startIdx = visibleStart / batchSize
and endIdx = visibleEnd / batchSize, these are (startIdx + k) * batchSize
for k = 0 .. endIdx - startIdx (empty when startBatch > endBatch, which is
how the source loop also behaves; batchSize = 0 would not terminate in the
source and every theorem below assumes 0 < batchSize). -/
def batchOffsets (visibleStart visibleEnd batchSize : Nat) : List Nat :=
  let startIdx := visibleStart / batchSize
  let endIdx := visibleEnd / batchSize
  (List.range (endIdx + 1 - startIdx)).map (fun k => (startIdx + k) * batchSize)

/-- The body of the checkAndLoadBatches loop (virtual-scroll.js lines
129-133) over an explicit list of offsets: for each offset, if it is in
neither loadedData nor loadingCache, call loadBatch(offset) (whose
synchronous part is loadBatchStart).  Returns the final state and the list
of offsets for which a fetch request was issued, in order. -/
def loadLoop : VSState A R → List Nat → VSState A R × List Nat
  | s, [] => (s, [])
  | s, offset :: rest =>
      if (s.loadedData offset).isNone = true ∧ s.loadingCache offset = false then
        ((loadLoop (loadBatchStart s offset).1 rest).1,
          if (loadBatchStart s offset).2 = true then
            offset :: (loadLoop (loadBatchStart s offset).1 rest).2
          else (loadLoop (loadBatchStart s offset).1 rest).2)
      else loadLoop s rest

/-- checkAndLoadBatches (virtual-scroll.js lines 124-134). -/
def checkAndLoadBatches (s : VSState A R) : VSState A R × List Nat :=
  loadLoop s (batchOffsets s.visibleStart s.visibleEnd s.batchSize)

/-- The assignment of the visible range fields (virtual-scroll.js lines
114-115): this.visibleStart = ..., this.visibleEnd = .... -/
def setWindow (s : VSState A R) (vs ve : Nat) : VSState A R :=
  { s with visibleStart := vs, visibleEnd := ve }

/-- handleScroll (virtual-scroll.js lines 105-122): read scrollTop and
clientHeight, compute the visible range, checkAndLoadBatches, render.
Returns the new state and the offsets for which fetches were issued. -/
def handleScroll (s : VSState A R) (containerHeight : Nat) : VSState A R × List Nat :=
  let w := computeRange s.scrollTop containerHeight s.rowHeight s.bufferSize s.totalRows
  let r := checkAndLoadBatches (setWindow s w.start w.stop)
  (render r.1, r.2)

/-- reset() (virtual-scroll.js lines 184-191): clear loadedData and
loadingCache, zero visibleStart, visibleEnd, totalRows and the container
scroll position.  Nothing else is touched; in particular in-flight fetches
are not aborted. -/
def reset (s : VSState A R) : VSState A R :=
  { s with
    loadedData := fun _ => none
    loadingCache := fun _ => false
    visibleStart := 0
    visibleEnd := 0
    totalRows := 0
    scrollTop := 0 }

/-- The synchronous part of updateFilters(newFilters) (virtual-scroll.js
lines 178-182): assign filters, reset(), then the part of the initial load
that runs synchronously, namely loadBatch(0) up to its await. -/
def updateFiltersStart (s : VSState A R) (newFilters : List (String × String)) : VSState A R :=
  (loadBatchStart (reset { s with filters := newFilters }) 0).1

/-- The whole first-load path (virtual-scroll.js lines 60-64): await
loadBatch(0) — modelled as loadBatchStart followed by the fetch settling
with the given outcome — then render(). -/
def initThenRender (s : VSState A R) (out : Outcome A) : VSState A R :=
  render (loadBatchResolve (loadBatchStart s 0).1 0 out)

/-- The events of the engine's event loop: the synchronous part of a
loadBatch call, the settling of an in-flight fetch, a scroll notification
(handleScroll), the environment moving the scroll container, and reset(). -/
inductive Ev (A : Type) where
  | start (offset : Nat)
  | resolve (offset : Nat) (out : Outcome A)
  | scroll (containerHeight : Nat)
  | setScrollTop (v : Nat)
  | doReset
  deriving Repr, DecidableEq

/-- Whether an event is the reset() call. -/
def Ev.isReset : Ev A → Bool
  | Ev.doReset => true
  | _ => false

/-- One event-loop step.  Returns the new state and the batch offsets for
which fetch requests were issued during the step. -/
def stepEv (s : VSState A R) : Ev A → VSState A R × List Nat
  | Ev.start offset =>
      let r := loadBatchStart s offset
      (r.1, if r.2 = true then [offset] else [])
  | Ev.resolve offset out => (loadBatchResolve s offset out, [])
  | Ev.scroll containerHeight => handleScroll s containerHeight
  | Ev.setScrollTop v => ({ s with scrollTop := v }, [])
  | Ev.doReset => (reset s, [])

/-- Run a list of events from a state. -/
def runTrace (s : VSState A R) : List (Ev A) → VSState A R
  | [] => s
  | e :: tr => runTrace (stepEv s e).1 tr

/-- Well-formedness of the network ghost state: no offset has two fetches in
flight, and every in-flight offset is marked in loadingCache. -/
def WF (s : VSState A R) : Prop :=
  s.inFlight.Nodup ∧ ∀ o, o ∈ s.inFlight → s.loadingCache o = true

/-- A concrete table in its post-constructor state, used by witnesses. -/
def exTable : VSState Nat Nat :=
  mkTable 50 20 100 "/api/crawl_data" "sess1" [] (fun r => r)

/-- A concrete mid-session state: batch 200 cached, batch 300 pending,
window rows 150 to 420, one million total rows.  Used by witnesses. -/
def exCover : VSState Nat Nat :=
  { exTable with
    loadedData := fun o => if o = 200 then some (List.replicate 100 5) else none
    loadingCache := fun o => decide (o = 300)
    inFlight := [300]
    visibleStart := 150
    visibleEnd := 420
    totalRows := 1000000 }

/-- A concrete state whose window is rows 200 to 212 with batch 200 cached,
used by the reconciler witness. -/
def exRender : VSState Nat Nat :=
  { exCover with visibleStart := 200, visibleEnd := 212 }

theorem loadBatchStart_loadedData (s : VSState A R) (o : Nat) :
    (loadBatchStart s o).1.loadedData = s.loadedData := by
  unfold loadBatchStart; split <;> rfl

theorem loadBatchStart_batchSize (s : VSState A R) (o : Nat) :
    (loadBatchStart s o).1.batchSize = s.batchSize := by
  unfold loadBatchStart; split <;> rfl

theorem loadBatchStart_of_not_pending (s : VSState A R) (o : Nat)
    (h : s.loadingCache o = false) :
    loadBatchStart s o =
      ({ s with
          loadingCache := fun o2 => if o2 = o then true else s.loadingCache o2
          isLoading := true
          inFlight := o :: s.inFlight }, true) := by
  unfold loadBatchStart
  rw [if_neg (by simp [h])]

theorem loadBatchResolve_inFlight (s : VSState A R) (offset : Nat) (out : Outcome A) :
    (loadBatchResolve s offset out).inFlight = s.inFlight.erase offset := by
  cases out with
  | success rows total => cases total <;> rfl
  | failure => rfl
  | transportError => rfl

theorem loadBatchResolve_loadingCache (s : VSState A R) (offset : Nat) (out : Outcome A)
    (o : Nat) :
    (loadBatchResolve s offset out).loadingCache o =
      if o = offset then false else s.loadingCache o := by
  cases out with
  | success rows total => cases total <;> rfl
  | failure => rfl
  | transportError => rfl

theorem loadBatchResolve_batchSize (s : VSState A R) (offset : Nat) (out : Outcome A) :
    (loadBatchResolve s offset out).batchSize = s.batchSize := by
  cases out with
  | success rows total => cases total <;> rfl
  | failure => rfl
  | transportError => rfl

theorem loadBatchResolve_displayed (s : VSState A R) (offset : Nat) (out : Outcome A) :
    (loadBatchResolve s offset out).displayed = s.displayed := by
  cases out with
  | success rows total => cases total <;> rfl
  | failure => rfl
  | transportError => rfl

theorem loadBatchStart_WF (s : VSState A R) (o : Nat) (h : WF s) :
    WF (loadBatchStart s o).1 := by
  unfold loadBatchStart
  split
  · exact h
  · rename_i hp
    have hp2 : s.loadingCache o = false := by
      cases hc : s.loadingCache o
      · rfl
      · exact absurd hc hp
    constructor
    · exact List.nodup_cons.mpr ⟨fun hm => by simp [h.2 o hm] at hp2, h.1⟩
    · intro o2 hm
      rcases List.mem_cons.mp hm with h1 | h1
      · subst h1; simp
      · by_cases he : o2 = o
        · simp [he]
        · simpa [he] using h.2 o2 h1

theorem loadBatchResolve_WF (s : VSState A R) (offset : Nat) (out : Outcome A) (h : WF s) :
    WF (loadBatchResolve s offset out) := by
  constructor
  · rw [loadBatchResolve_inFlight]; exact h.1.erase offset
  · intro o hm
    rw [loadBatchResolve_inFlight] at hm
    rw [loadBatchResolve_loadingCache]
    have hne : o ≠ offset ∧ o ∈ s.inFlight := (List.Nodup.mem_erase_iff h.1).mp hm
    rw [if_neg hne.1]
    exact h.2 o hne.2

theorem loadBatchStart_loadingCache (s : VSState A R) (offset : Nat)
    (h : s.loadingCache offset = false) (o : Nat) :
    (loadBatchStart s offset).1.loadingCache o =
      if o = offset then true else s.loadingCache o := by
  rw [loadBatchStart_of_not_pending s offset h]

theorem loadBatchStart_inFlight (s : VSState A R) (offset : Nat)
    (h : s.loadingCache offset = false) :
    (loadBatchStart s offset).1.inFlight = offset :: s.inFlight := by
  rw [loadBatchStart_of_not_pending s offset h]

theorem loadLoop_cons_pos (s : VSState A R) (offset : Nat) (rest : List Nat)
    (hg : (s.loadedData offset).isNone = true ∧ s.loadingCache offset = false) :
    loadLoop s (offset :: rest) =
      ((loadLoop (loadBatchStart s offset).1 rest).1,
        offset :: (loadLoop (loadBatchStart s offset).1 rest).2) := by
  have h2 : (loadBatchStart s offset).2 = true := by
    rw [loadBatchStart_of_not_pending s offset hg.2]
  rw [loadLoop, if_pos hg, if_pos h2]

theorem loadLoop_loadedData (s : VSState A R) (L : List Nat) :
    (loadLoop s L).1.loadedData = s.loadedData := by
  induction L generalizing s with
  | nil => rfl
  | cons offset rest ih =>
      by_cases hg : (s.loadedData offset).isNone = true ∧ s.loadingCache offset = false
      · rw [loadLoop_cons_pos s offset rest hg]
        rw [ih, loadBatchStart_loadedData]
      · rw [loadLoop, if_neg hg]
        exact ih s

theorem loadLoop_batchSize (s : VSState A R) (L : List Nat) :
    (loadLoop s L).1.batchSize = s.batchSize := by
  induction L generalizing s with
  | nil => rfl
  | cons offset rest ih =>
      by_cases hg : (s.loadedData offset).isNone = true ∧ s.loadingCache offset = false
      · rw [loadLoop_cons_pos s offset rest hg]
        rw [ih, loadBatchStart_batchSize]
      · rw [loadLoop, if_neg hg]
        exact ih s

theorem loadLoop_mem (s : VSState A R) (L : List Nat) (o : Nat) :
    o ∈ (loadLoop s L).2 ↔
      o ∈ L ∧ (s.loadedData o).isNone = true ∧ s.loadingCache o = false := by
  induction L generalizing s with
  | nil => simp [loadLoop]
  | cons offset rest ih =>
      by_cases hg : (s.loadedData offset).isNone = true ∧ s.loadingCache offset = false
      · rw [loadLoop_cons_pos s offset rest hg]
        simp only [List.mem_cons]
        rw [ih, loadBatchStart_loadedData,
          loadBatchStart_loadingCache s offset hg.2 o]
        by_cases ho : o = offset
        · subst ho
          simp [hg.1, hg.2]
        · simp [ho]
      · rw [loadLoop, if_neg hg]
        rw [ih]
        constructor
        · rintro ⟨h1, h2, h3⟩
          exact ⟨List.mem_cons_of_mem _ h1, h2, h3⟩
        · rintro ⟨h1, h2, h3⟩
          rcases List.mem_cons.mp h1 with h1 | h1
          · subst h1; exact absurd ⟨h2, h3⟩ hg
          · exact ⟨h1, h2, h3⟩

theorem loadLoop_nodup (s : VSState A R) (L : List Nat) :
    ((loadLoop s L).2).Nodup := by
  induction L generalizing s with
  | nil => exact List.nodup_nil
  | cons offset rest ih =>
      by_cases hg : (s.loadedData offset).isNone = true ∧ s.loadingCache offset = false
      · rw [loadLoop_cons_pos s offset rest hg]
        refine List.nodup_cons.mpr ⟨fun hm => ?_, ih _⟩
        have hmm := (loadLoop_mem _ rest offset).mp hm
        rw [loadBatchStart_loadingCache s offset hg.2 offset] at hmm
        simp at hmm
      · rw [loadLoop, if_neg hg]
        exact ih s

theorem loadLoop_loadingCache (s : VSState A R) (L : List Nat) (o : Nat) :
    (loadLoop s L).1.loadingCache o = true ↔
      s.loadingCache o = true ∨ o ∈ (loadLoop s L).2 := by
  induction L generalizing s with
  | nil => simp [loadLoop]
  | cons offset rest ih =>
      by_cases hg : (s.loadedData offset).isNone = true ∧ s.loadingCache offset = false
      · rw [loadLoop_cons_pos s offset rest hg]
        simp only [List.mem_cons]
        rw [ih, loadBatchStart_loadingCache s offset hg.2 o]
        by_cases ho : o = offset
        · subst ho; simp
        · simp [ho]
      · rw [loadLoop, if_neg hg]
        exact ih s

theorem loadLoop_WF (s : VSState A R) (L : List Nat) (h : WF s) :
    WF (loadLoop s L).1 := by
  induction L generalizing s with
  | nil => exact h
  | cons offset rest ih =>
      by_cases hg : (s.loadedData offset).isNone = true ∧ s.loadingCache offset = false
      · rw [loadLoop_cons_pos s offset rest hg]
        exact ih _ (loadBatchStart_WF s offset h)
      · rw [loadLoop, if_neg hg]
        exact ih s h

theorem stepEv_WF (s : VSState A R) (e : Ev A) (he : e.isReset = false) (h : WF s) :
    WF (stepEv s e).1 := by
  cases e with
  | start offset => exact loadBatchStart_WF s offset h
  | resolve offset out => exact loadBatchResolve_WF s offset out h
  | scroll containerHeight => exact loadLoop_WF _ _ h
  | setScrollTop v => exact h
  | doReset => simp [Ev.isReset] at he

theorem runTrace_WF (s : VSState A R) (tr : List (Ev A)) (h : WF s)
    (hnr : ∀ e ∈ tr, e.isReset = false) : WF (runTrace s tr) := by
  induction tr generalizing s with
  | nil => exact h
  | cons e tr ih =>
      exact ih _ (stepEv_WF s e (hnr e (List.mem_cons_self e tr)) h)
        (fun e2 he2 => hnr e2 (List.mem_cons_of_mem e he2))

theorem mem_batchOffsets {visibleStart visibleEnd batchSize o : Nat} (hbs : 0 < batchSize) :
    o ∈ batchOffsets visibleStart visibleEnd batchSize ↔
      batchSize ∣ o ∧ visibleStart / batchSize * batchSize ≤ o ∧
        o ≤ visibleEnd / batchSize * batchSize := by
  unfold batchOffsets
  simp only [List.mem_map, List.mem_range]
  constructor
  · rintro ⟨k, hk, rfl⟩
    refine ⟨dvd_mul_left batchSize (visibleStart / batchSize + k), ?_, ?_⟩
    · exact Nat.mul_le_mul_right batchSize (Nat.le_add_right _ k)
    · exact Nat.mul_le_mul_right batchSize (by omega)
  · rintro ⟨⟨m, rfl⟩, h1, h2⟩
    have hsm : visibleStart / batchSize ≤ m := by
      rw [mul_comm (visibleStart / batchSize) batchSize] at h1
      exact Nat.le_of_mul_le_mul_left h1 hbs
    have hme : m ≤ visibleEnd / batchSize := by
      rw [mul_comm (visibleEnd / batchSize) batchSize] at h2
      exact Nat.le_of_mul_le_mul_left h2 hbs
    refine ⟨m - visibleStart / batchSize, by omega, ?_⟩
    rw [Nat.add_sub_cancel' hsm, mul_comm]

/-- C1.  The claim states stale-generation rejection: issue a fetch, call
reset(), resolve the fetch — the cache afterwards contains no batches.  The
source has no generation counter: the loadBatch continuation commits the
response into loadedData unconditionally, so the cache that reset() emptied
is repopulated by the stale response.  This theorem evaluates the code on
the failing trace: after loadBatchStart 0, reset, and a successful
resolution, the cache holds batch 0 even though it was empty after reset. -/
theorem staleResponseRepopulatesCache :
    (∀ o, (reset (loadBatchStart exTable 0).1).loadedData o = none) ∧
    (loadBatchResolve (reset (loadBatchStart exTable 0).1) 0
        (Outcome.success [7] (some 1))).loadedData 0 = some [7] :=
  ⟨fun _ => rfl, rfl⟩

/-- C3.  The claim states that after every successful batch commit one render
pass is triggered unconditionally.  The source's loadBatch success path only
stores the batch and (when a total is present) updates the spacers; it never
calls render(), so the displayed rows are unchanged by every commit.  The
concrete trace: first load resolves, the user scrolls to row 10000/50 = 200
(which issues the fetch for offset 200 and renders twelve gaps), the fetch
then resolves — the batch is committed but the display still shows twelve
gaps until some later scroll event. -/
theorem commitDoesNotTriggerRender :
    (∀ (s : VSState Nat Nat) (offset : Nat) (out : Outcome Nat),
        (loadBatchResolve s offset out).displayed = s.displayed) ∧
    (let s0 := mkTable 50 0 100 "/api/crawl_data" "sess" [] (fun r => r)
     let s1 := render (loadBatchResolve (loadBatchStart s0 0).1 0
        (Outcome.success (List.replicate 100 0) (some 1000)))
     let s2 := { s1 with scrollTop := 10000 }
     let s3 := (handleScroll s2 600).1
     let s4 := loadBatchResolve s3 200 (Outcome.success (List.replicate 100 1) (some 1000))
     (handleScroll s2 600).2 = [200] ∧
     s3.displayed = List.replicate 12 none ∧
     s4.loadedData 200 = some (List.replicate 100 1) ∧
     s4.displayed = List.replicate 12 none) :=
  ⟨fun s offset out => loadBatchResolve_displayed s offset out, by decide⟩

/-- C4 counterexample.  The claim asserts that for every scroll offset,
viewport height, rowHeightPx greater than 0, bufferRows and totalRows the
computed window satisfies 0 <= start <= end <= totalRows, and that when
totalRows is still unknown only the lower bound is clamped.  Both parts
fail on the code: with scrollTop 5000, height 600, rowHeight 50, buffer 20
and totalRows 10 the window is start = 80, end = 10, so end < start; and
the code represents an unknown total as totalRows = 0, so the upper bound
is clamped to 0 (here a 600 px viewport yields end = 0, not endRow+buffer). -/
theorem computeRangeOrderViolation :
    (computeRange 5000 600 50 20 10).stop < (computeRange 5000 600 50 20 10).start ∧
    (computeRange 0 600 50 0 0).stop = 0 := by
  decide

/-- C4 as amended.  The formulas of the claim hold as stated:
start = max(0, floor(scrollTop/rowHeight) - buffer) (truncated subtraction)
and end = min(totalRows, endRow + buffer), hence end <= totalRows always,
and end - start <= viewportRows + 2*buffer where viewportRows =
endRow - startRow.  The ordering start <= end additionally requires the
scroll offset to lie within the known content, startRow - buffer <=
totalRows; the code clamps the upper bound to the current totalRows even
before any total is known (totalRows starts at 0). -/
theorem computeRangeBounds (scrollTop containerHeight rowHeight bufferSize totalRows : Nat)
    (hr : 0 < rowHeight) :
    (computeRange scrollTop containerHeight rowHeight bufferSize totalRows).start
        = scrollTop / rowHeight - bufferSize ∧
    (computeRange scrollTop containerHeight rowHeight bufferSize totalRows).stop
        = min totalRows
            ((scrollTop + containerHeight + rowHeight - 1) / rowHeight + bufferSize) ∧
    (computeRange scrollTop containerHeight rowHeight bufferSize totalRows).stop
        ≤ totalRows ∧
    (computeRange scrollTop containerHeight rowHeight bufferSize totalRows).stop
        - (computeRange scrollTop containerHeight rowHeight bufferSize totalRows).start
      ≤ ((scrollTop + containerHeight + rowHeight - 1) / rowHeight - scrollTop / rowHeight)
          + 2 * bufferSize ∧
    (scrollTop / rowHeight - bufferSize ≤ totalRows →
      (computeRange scrollTop containerHeight rowHeight bufferSize totalRows).start
        ≤ (computeRange scrollTop containerHeight rowHeight bufferSize totalRows).stop) := by
  have hmono : scrollTop / rowHeight ≤ (scrollTop + containerHeight + rowHeight - 1) / rowHeight :=
    Nat.div_le_div_right (by omega)
  refine ⟨rfl, rfl, ?_, ?_, ?_⟩
  · show min totalRows ((scrollTop + containerHeight + rowHeight - 1) / rowHeight + bufferSize)
      ≤ totalRows
    exact Nat.min_le_left _ _
  · show min totalRows ((scrollTop + containerHeight + rowHeight - 1) / rowHeight + bufferSize)
        - (scrollTop / rowHeight - bufferSize)
      ≤ ((scrollTop + containerHeight + rowHeight - 1) / rowHeight - scrollTop / rowHeight)
          + 2 * bufferSize
    set sR := scrollTop / rowHeight with hsR
    set eR := (scrollTop + containerHeight + rowHeight - 1) / rowHeight with heR
    have h3 : min totalRows (eR + bufferSize) ≤ eR + bufferSize := Nat.min_le_right _ _
    set m := min totalRows (eR + bufferSize) with hm
    omega
  · intro hin
    show scrollTop / rowHeight - bufferSize ≤
      min totalRows ((scrollTop + containerHeight + rowHeight - 1) / rowHeight + bufferSize)
    exact le_min hin (le_trans (Nat.sub_le _ _) (le_trans hmono (Nat.le_add_right _ _)))

/-- C4 witness: the amended bounds at scrollTop 10000, height 600, rowHeight
50, buffer 20, totalRows 1000, including the ordering conjunct with its
in-content side condition discharged. -/
theorem computeRangeBoundsWitness :
    ((computeRange 10000 600 50 20 1000).start = 10000 / 50 - 20 ∧
     (computeRange 10000 600 50 20 1000).stop
        = min 1000 ((10000 + 600 + 50 - 1) / 50 + 20) ∧
     (computeRange 10000 600 50 20 1000).stop ≤ 1000 ∧
     (computeRange 10000 600 50 20 1000).stop - (computeRange 10000 600 50 20 1000).start
       ≤ ((10000 + 600 + 50 - 1) / 50 - 10000 / 50) + 2 * 20) ∧
    (computeRange 10000 600 50 20 1000).start ≤ (computeRange 10000 600 50 20 1000).stop :=
  ⟨⟨(computeRangeBounds 10000 600 50 20 1000 (by decide)).1,
    (computeRangeBounds 10000 600 50 20 1000 (by decide)).2.1,
    (computeRangeBounds 10000 600 50 20 1000 (by decide)).2.2.1,
    (computeRangeBounds 10000 600 50 20 1000 (by decide)).2.2.2.1⟩,
   (computeRangeBounds 10000 600 50 20 1000 (by decide)).2.2.2.2 (by decide)⟩

theorem checkAndLoadBatches_setWindow (x : VSState A R) (vs ve : Nat) :
    checkAndLoadBatches (setWindow x vs ve) =
      loadLoop (setWindow x vs ve) (batchOffsets vs ve x.batchSize) := rfl

theorem setWindow_batchSize (x : VSState A R) (vs ve : Nat) :
    (setWindow x vs ve).batchSize = x.batchSize := rfl

theorem twoPassCount (s1 t : VSState A R) (B1 B2 : List Nat) (o : Nat)
    (hld : t.loadedData = (loadLoop s1 B1).1.loadedData)
    (hlc : t.loadingCache = (loadLoop s1 B1).1.loadingCache) :
    ((loadLoop s1 B1).2 ++ (loadLoop t B2).2).count o =
      if (o ∈ B1 ∨ o ∈ B2) ∧ (s1.loadedData o).isNone = true ∧ s1.loadingCache o = false
      then 1 else 0 := by
  rw [List.count_append]
  have hm1 := loadLoop_mem s1 B1 o
  have hm2 := loadLoop_mem t B2 o
  rw [hld, hlc, loadLoop_loadedData] at hm2
  have hlc1 := loadLoop_loadingCache s1 B1 o
  by_cases hN : (s1.loadedData o).isNone = true
  · by_cases hP : s1.loadingCache o = false
    · by_cases hB1 : o ∈ B1
      · have hr1 : o ∈ (loadLoop s1 B1).2 := hm1.mpr ⟨hB1, hN, hP⟩
        have hp1 : (loadLoop s1 B1).1.loadingCache o = true := hlc1.mpr (Or.inr hr1)
        have hr2 : o ∉ (loadLoop t B2).2 := by
          intro hmem
          rw [(hm2.mp hmem).2.2] at hp1
          simp at hp1
        rw [List.count_eq_one_of_mem (loadLoop_nodup s1 B1) hr1,
          List.count_eq_zero_of_not_mem hr2, if_pos ⟨Or.inl hB1, hN, hP⟩]
      · have hr1 : o ∉ (loadLoop s1 B1).2 := fun hmem => hB1 (hm1.mp hmem).1
        have hp1 : (loadLoop s1 B1).1.loadingCache o = false := by
          cases hb : (loadLoop s1 B1).1.loadingCache o
          · rfl
          · rcases hlc1.mp hb with h | h
            · rw [hP] at h; simp at h
            · exact absurd h hr1
        by_cases hB2 : o ∈ B2
        · have hr2 : o ∈ (loadLoop t B2).2 := hm2.mpr ⟨hB2, hN, hp1⟩
          rw [List.count_eq_zero_of_not_mem hr1,
            List.count_eq_one_of_mem (loadLoop_nodup t B2) hr2,
            if_pos ⟨Or.inr hB2, hN, hP⟩]
        · have hr2 : o ∉ (loadLoop t B2).2 := fun hmem => hB2 (hm2.mp hmem).1
          rw [List.count_eq_zero_of_not_mem hr1, List.count_eq_zero_of_not_mem hr2,
            if_neg (fun hcond => hcond.1.elim hB1 hB2)]
    · have hPtrue : s1.loadingCache o = true := by
        cases hb : s1.loadingCache o
        · exact absurd hb hP
        · rfl
      have hr1 : o ∉ (loadLoop s1 B1).2 := fun hmem => hP (hm1.mp hmem).2.2
      have hp1 : (loadLoop s1 B1).1.loadingCache o = true := hlc1.mpr (Or.inl hPtrue)
      have hr2 : o ∉ (loadLoop t B2).2 := by
        intro hmem
        rw [(hm2.mp hmem).2.2] at hp1
        simp at hp1
      rw [List.count_eq_zero_of_not_mem hr1, List.count_eq_zero_of_not_mem hr2,
        if_neg (fun hcond => hP hcond.2.2)]
  · have hr1 : o ∉ (loadLoop s1 B1).2 := fun hmem => hN (hm1.mp hmem).2.1
    have hr2 : o ∉ (loadLoop t B2).2 := fun hmem => hN (hm2.mp hmem).2.1
    rw [List.count_eq_zero_of_not_mem hr1, List.count_eq_zero_of_not_mem hr2,
      if_neg (fun hcond => hN hcond.2.1)]

/-- C2 counterexample.  The claim asserts that for every batch offset at
most one fetch request is in flight at a time.  That fails across a reset:
updateFilters() while the offset-0 fetch is still in flight clears
loadingCache and immediately calls loadBatch(0) again, whose pending-set
check now passes, so a second fetch for offset 0 is issued while the first
is still outstanding (the source does not abort in-flight fetches). -/
theorem resetAllowsDuplicateInFlight :
    (updateFiltersStart (loadBatchStart exTable 0).1 [("active", "internal")]).inFlight
        = [0, 0] ∧
    ¬ ((updateFiltersStart (loadBatchStart exTable 0).1
        [("active", "internal")]).inFlight).Nodup := by
  decide

/-- C2 as amended: in any execution without reset()/updateFilters() the
in-flight request list never holds the same offset twice (at most one fetch
in flight per offset), and the dedup property holds as stated: two
checkAndLoadBatches passes over two windows, both before any request
resolves, issue exactly one request for each offset that overlaps either
window and is neither cached nor pending at the start, and none for any
other offset. -/
theorem requestDedupInvariant :
    (∀ (s : VSState A R) (tr : List (Ev A)), WF s →
        (∀ e ∈ tr, e.isReset = false) → ((runTrace s tr).inFlight).Nodup) ∧
    (∀ (s : VSState A R) (vs1 ve1 vs2 ve2 o : Nat),
        ((checkAndLoadBatches (setWindow s vs1 ve1)).2 ++
          (checkAndLoadBatches
            (setWindow (checkAndLoadBatches (setWindow s vs1 ve1)).1 vs2 ve2)).2).count o =
          (if (o ∈ batchOffsets vs1 ve1 s.batchSize ∨ o ∈ batchOffsets vs2 ve2 s.batchSize) ∧
              (s.loadedData o).isNone = true ∧ s.loadingCache o = false
           then 1 else 0)) := by
  constructor
  · exact fun s tr hWF hnr => (runTrace_WF s tr hWF hnr).1
  · intro s vs1 ve1 vs2 ve2 o
    rw [checkAndLoadBatches_setWindow s vs1 ve1,
      checkAndLoadBatches_setWindow
        (loadLoop (setWindow s vs1 ve1) (batchOffsets vs1 ve1 s.batchSize)).1 vs2 ve2,
      loadLoop_batchSize, setWindow_batchSize]
    exact twoPassCount (setWindow s vs1 ve1) _ _ _ o rfl rfl

/-- C2 witness: a concrete reset-free trace (issue offset 0, scroll to row
200 which issues offset 200, resolve offset 0) keeps the in-flight list
duplicate-free, and in exCover two coverage passes over windows 150-420 and
380-620 issue offset 400 exactly once. -/
theorem requestDedupInvariantWitness :
    ((runTrace exTable [Ev.start 0, Ev.setScrollTop 10000, Ev.scroll 600,
        Ev.resolve 0 (Outcome.success [1] (some 1000))]).inFlight).Nodup ∧
    ((checkAndLoadBatches (setWindow exCover 150 420)).2 ++
      (checkAndLoadBatches
        (setWindow (checkAndLoadBatches (setWindow exCover 150 420)).1 380 620)).2).count 400 =
      (if (400 ∈ batchOffsets 150 420 exCover.batchSize ∨
            400 ∈ batchOffsets 380 620 exCover.batchSize) ∧
          (exCover.loadedData 400).isNone = true ∧ exCover.loadingCache 400 = false
       then 1 else 0) :=
  ⟨requestDedupInvariant.1 exTable _
      ⟨List.nodup_nil, fun o h => absurd h (List.not_mem_nil o)⟩ (by decide),
    requestDedupInvariant.2 exCover 150 420 380 620 400⟩

/-- C5.  Coverage computation (checkAndLoadBatches, virtual-scroll.js lines
124-134): the offsets considered are exactly the multiples of batchSize
from floor(visibleStart/batchSize)*batchSize up to and including
floor(visibleEnd/batchSize)*batchSize, and a fetch is issued for precisely
those of them that are neither cached in loadedData nor pending in
loadingCache. -/
theorem coverageOffsetsCharacterization (s : VSState A R) (hbs : 0 < s.batchSize) (o : Nat) :
    (o ∈ batchOffsets s.visibleStart s.visibleEnd s.batchSize ↔
      s.batchSize ∣ o ∧ s.visibleStart / s.batchSize * s.batchSize ≤ o ∧
        o ≤ s.visibleEnd / s.batchSize * s.batchSize) ∧
    (o ∈ (checkAndLoadBatches s).2 ↔
      o ∈ batchOffsets s.visibleStart s.visibleEnd s.batchSize ∧
        (s.loadedData o).isNone = true ∧ s.loadingCache o = false) :=
  ⟨mem_batchOffsets hbs, loadLoop_mem s _ o⟩

/-- C5 witness: in the concrete state exCover (batchSize 100, window rows
150 to 420, batch 200 cached, batch 300 pending) the considered offsets are
100, 200, 300, 400 and the issued ones are exactly 100 and 400. -/
theorem coverageOffsetsCharacterizationWitness :
    (400 ∈ batchOffsets exCover.visibleStart exCover.visibleEnd exCover.batchSize ↔
      exCover.batchSize ∣ 400 ∧
        exCover.visibleStart / exCover.batchSize * exCover.batchSize ≤ 400 ∧
        400 ≤ exCover.visibleEnd / exCover.batchSize * exCover.batchSize) ∧
    (400 ∈ (checkAndLoadBatches exCover).2 ↔
      400 ∈ batchOffsets exCover.visibleStart exCover.visibleEnd exCover.batchSize ∧
        (exCover.loadedData 400).isNone = true ∧ exCover.loadingCache 400 = false) :=
  coverageOffsetsCharacterization exCover (by decide) 400

/-- C7.  Failure handling (loadBatch, virtual-scroll.js lines 97-102): when
the fetch for an offset settles with success=false or a transport error,
nothing is stored (the offset stays absent from loadedData), the finally
block removes the offset from loadingCache, and no error escapes
(loadBatchResolve is a total function: catch and finally are modelled by
the failure branches returning an ordinary state).  Consequently a later
checkAndLoadBatches whose considered offsets include this one issues the
fetch again. -/
theorem failureLeavesRetryEligible (s : VSState A R) (offset vs ve : Nat) (out : Outcome A)
    (hout : out = Outcome.failure ∨ out = Outcome.transportError)
    (habs : s.loadedData offset = none)
    (hcov : offset ∈ batchOffsets vs ve s.batchSize) :
    (loadBatchResolve s offset out).loadedData offset = none ∧
    (loadBatchResolve s offset out).loadingCache offset = false ∧
    offset ∈ (checkAndLoadBatches
      { loadBatchResolve s offset out with visibleStart := vs, visibleEnd := ve }).2 := by
  have hld : (loadBatchResolve s offset out).loadedData = s.loadedData := by
    rcases hout with h | h <;> subst h <;> rfl
  have hlc : (loadBatchResolve s offset out).loadingCache offset = false := by
    rw [loadBatchResolve_loadingCache, if_pos rfl]
  refine ⟨by rw [hld]; exact habs, hlc, ?_⟩
  have hbsz : ({ loadBatchResolve s offset out with
      visibleStart := vs, visibleEnd := ve } : VSState A R).batchSize = s.batchSize :=
    loadBatchResolve_batchSize s offset out
  rw [checkAndLoadBatches, loadLoop_mem]
  refine ⟨?_, ?_, ?_⟩
  · show offset ∈ batchOffsets vs ve (loadBatchResolve s offset out).batchSize
    rw [loadBatchResolve_batchSize]
    exact hcov
  · show ((loadBatchResolve s offset out).loadedData offset).isNone = true
    rw [hld, habs]
    rfl
  · exact hlc

/-- C7 witness: in exCover the fetch for offset 300 is pending; resolving it
with success=false leaves 300 absent and not pending, and a later coverage
pass over window rows 250 to 310 issues it again. -/
theorem failureLeavesRetryEligibleWitness :
    (loadBatchResolve exCover 300 Outcome.failure).loadedData 300 = none ∧
    (loadBatchResolve exCover 300 Outcome.failure).loadingCache 300 = false ∧
    300 ∈ (checkAndLoadBatches
      { loadBatchResolve exCover 300 Outcome.failure with
        visibleStart := 250, visibleEnd := 310 }).2 :=
  failureLeavesRetryEligible exCover 300 250 310 Outcome.failure (Or.inl rfl)
    (by decide) (by decide)

/-- C6.  The reconciler (render, virtual-scroll.js lines 136-168, and
updateSpacers, lines 170-176): the render loop produces one entry per index
i in the half-open window, the entry for i being the row at position
i - batchOffset of the cached batch at batchOffset =
floor(i/batchSize)*batchSize exactly when that batch is cached and
i - batchOffset is within its length, and a gap (none) otherwise; the
display is the row-renderer applied to that sequence; and the spacers
satisfy topSpacerPx = visibleStart * rowHeight and bottomSpacerPx =
max(0, (totalRows - visibleEnd) * rowHeight). -/
theorem reconcilerCharacterization (s : VSState A R) :
    (renderRows s).length = s.visibleEnd - s.visibleStart ∧
    (∀ i, s.visibleStart ≤ i → i < s.visibleEnd →
      (renderRows s)[i - s.visibleStart]? =
        some ((s.loadedData (i / s.batchSize * s.batchSize)).bind
          (fun batch => batch[i - i / s.batchSize * s.batchSize]?))) ∧
    (render s).displayed = (renderRows s).map (Option.map s.renderRow) ∧
    (render s).topSpacerPx = (s.visibleStart : Int) * (s.rowHeight : Int) ∧
    (render s).bottomSpacerPx =
      max 0 (((s.totalRows : Int) - (s.visibleEnd : Int)) * (s.rowHeight : Int)) := by
  refine ⟨by simp [renderRows], ?_, rfl, rfl, rfl⟩
  intro i h1 h2
  have hk : i - s.visibleStart < s.visibleEnd - s.visibleStart := by omega
  rw [renderRows, List.getElem?_map, List.getElem?_range hk]
  have hi : s.visibleStart + (i - s.visibleStart) = i := by omega
  rw [Option.map_some', hi]
  cases hld : s.loadedData (i / s.batchSize * s.batchSize) with
  | none => simp [rowAt, hld]
  | some batch =>
      by_cases hlen : i - i / s.batchSize * s.batchSize < batch.length
      · simp only [rowAt, hld]
        rw [dif_pos hlen, Option.some_bind, List.getElem?_eq_getElem hlen]
        rfl
      · simp only [rowAt, hld]
        rw [dif_neg hlen, Option.some_bind, List.getElem?_eq_none (by omega)]

/-- C6 witness: in exRender (window rows 200 to 212, batch 200 = one hundred
copies of the value 5) index 205 yields the row at position 5 of batch 200. -/
theorem reconcilerCharacterizationWitness :
    (renderRows exRender)[205 - exRender.visibleStart]? =
      some ((exRender.loadedData (205 / exRender.batchSize * exRender.batchSize)).bind
        (fun batch => batch[205 - 205 / exRender.batchSize * exRender.batchSize]?)) :=
  (reconcilerCharacterization exRender).2.1 205 (by decide) (by decide)

/-- C8.  The claim states that once a successful fetch has set totalRows, a
later successful commit reporting a smaller total does not shrink it.  The
source assigns this.totalRows = data.total on every successful load (the
comment in the source says first load only), so a later response carrying
total = 50 shrinks totalRows from 100 to 50 with no reset in between. -/
theorem totalRowsShrinks :
    (let s0 := mkTable 50 20 100 "/api/crawl_data" "sess" [] (fun r : Nat => r)
     let s1 := loadBatchResolve (loadBatchStart s0 0).1 0
        (Outcome.success (List.replicate 100 0) (some 100))
     let s2 := loadBatchResolve (loadBatchStart s1 100).1 100
        (Outcome.success [] (some 50))
     s1.totalRows = 100 ∧ s2.totalRows = 50 ∧ s2.totalRows < s1.totalRows) := by
  decide

/-- C9.  The claim states that initialize() computes an initial viewport
window from the container's current scroll metrics after the first batch
resolves and renders the initially visible rows.  The source's initialize
only awaits loadBatch(0) and calls render(); no window is ever computed
(visibleStart = visibleEnd = 0 from the constructor), so the render pass
emits no rows even though 50 rows are cached, the total is known and the
container's current metrics (scrollTop 0, height 600) would give a window
reaching row 32. -/
theorem initialRenderGap :
    (let s1 := initThenRender exTable (Outcome.success (List.replicate 50 0) (some 50))
     s1.totalRows = 50 ∧ s1.loadedData 0 = some (List.replicate 50 0) ∧
     s1.displayed = [] ∧
     0 < (computeRange s1.scrollTop 600 s1.rowHeight s1.bufferSize s1.totalRows).stop) := by
  decide

/-- C10.  reset() (virtual-scroll.js lines 184-191) clears exactly the
mutable session state — loadedData, loadingCache, visibleStart, visibleEnd,
totalRows and the container scroll position — and leaves every
configuration field (rowHeight, bufferSize, batchSize, apiEndpoint,
sessionId, filters, renderRow) unchanged, as well as everything else it
does not mention (isLoading, the rendered rows, the spacer heights, and the
in-flight fetches, which are not aborted). -/
theorem resetFrameProperty (s : VSState A R) :
    (reset s).rowHeight = s.rowHeight ∧
    (reset s).bufferSize = s.bufferSize ∧
    (reset s).batchSize = s.batchSize ∧
    (reset s).apiEndpoint = s.apiEndpoint ∧
    (reset s).sessionId = s.sessionId ∧
    (reset s).filters = s.filters ∧
    (reset s).renderRow = s.renderRow ∧
    (reset s).loadedData = (fun _ => none) ∧
    (reset s).loadingCache = (fun _ => false) ∧
    (reset s).visibleStart = 0 ∧
    (reset s).visibleEnd = 0 ∧
    (reset s).totalRows = 0 ∧
    (reset s).scrollTop = 0 ∧
    (reset s).isLoading = s.isLoading ∧
    (reset s).displayed = s.displayed ∧
    (reset s).topSpacerPx = s.topSpacerPx ∧
    (reset s).bottomSpacerPx = s.bottomSpacerPx ∧
    (reset s).inFlight = s.inFlight :=
  ⟨rfl, rfl, rfl, rfl, rfl, rfl, rfl, rfl, rfl, rfl, rfl, rfl, rfl, rfl, rfl, rfl, rfl, rfl⟩

end LibreCrawl
